import Mathlib

/-!
Shallow embedding of the Pizza Ordering API
(src/server/models.py and src/server/app.py).

Two layers are modelled.

First, process startup: app.py line 2 is
`from models import db, Restaurant, RestaurantPizza, Pizza`, executed
when the process starts, and models.py does not parse — the module
docstring opened by the `"""` on line 1 is terminated only by the `"""`
on line 26 (the intended opener of the Restaurant class docstring), so
the imports, the `db = SQLAlchemy(...)` setup and the class header on
lines 9-25 are all text inside one string literal, and line 27 is an
indented line where no statement expects indentation: an
IndentationError.  The lexical shape of every line of models.py is
transcribed into `modelsPyLines` and a small scanner locates the first
statement line, proving the parse fails at line 27; the import
therefore raises at startup and no handler is ever registered.

Second, the handler text itself: the data model (Restaurant, Pizza,
RestaurantPizza), the price validator and the four request handlers
are translated into pure Lean functions over an explicit store state,
as the code would behave had the module parsed.  JSON values are
modelled by an inductive `Json`; Python dynamic values that a parsed
JSON request body can carry (absent key, integer, float, boolean,
string) by `PyVal`; Python exceptions relevant to the handlers by
`PyExc`.
-/

namespace PizzaAPI

/-! ## Startup: parsing models.py -/

/-- Lexical shape of one physical line of a Python source file, as
needed to locate the first module-level statement: `tq` is the number
of `"""` delimiters on the line, `blank` whether the line is empty or
whitespace only, `indented` whether its first character is whitespace.
`modelsPyLines` below transcribes src/server/models.py line by line. -/
structure SrcLine where
  tq : Nat
  blank : Bool
  indented : Bool
deriving Repr, DecidableEq

/-- Transcription chunk: lines 1-26 of src/server/models.py. -/
def modelsPyLines1to26 : List SrcLine := [
   ⟨1, false, false⟩, ⟨0, false, false⟩, ⟨0, true, false⟩, ⟨0, false, false⟩, ⟨0, false, false⟩,
   ⟨0, false, false⟩, ⟨0, false, false⟩, ⟨0, true, false⟩, ⟨0, false, false⟩, ⟨0, false, false⟩,
   ⟨0, false, false⟩, ⟨0, false, false⟩, ⟨0, false, false⟩, ⟨0, false, false⟩, ⟨0, true, false⟩,
   ⟨0, false, false⟩, ⟨0, false, true⟩, ⟨0, false, true⟩, ⟨0, false, true⟩, ⟨0, false, false⟩,
   ⟨0, true, false⟩, ⟨0, false, false⟩, ⟨0, true, false⟩, ⟨0, true, false⟩, ⟨0, false, false⟩,
   ⟨1, false, true⟩]

/-- Transcription chunk: lines 27-52 of src/server/models.py. -/
def modelsPyLines27to52 : List SrcLine := [
   ⟨0, false, true⟩, ⟨0, true, true⟩, ⟨0, false, true⟩, ⟨0, false, true⟩, ⟨0, false, true⟩,
   ⟨0, false, true⟩, ⟨0, false, true⟩, ⟨1, false, true⟩, ⟨0, true, true⟩, ⟨0, false, true⟩,
   ⟨0, true, false⟩, ⟨0, false, true⟩, ⟨0, false, true⟩, ⟨0, false, true⟩, ⟨0, true, false⟩,
   ⟨0, false, true⟩, ⟨0, false, true⟩, ⟨0, true, false⟩, ⟨0, false, true⟩, ⟨0, false, true⟩,
   ⟨0, true, false⟩, ⟨0, false, true⟩, ⟨2, false, true⟩, ⟨0, false, true⟩, ⟨0, true, false⟩,
   ⟨0, true, false⟩]

/-- Transcription chunk: lines 53-78 of src/server/models.py. -/
def modelsPyLines53to78 : List SrcLine := [
   ⟨0, false, false⟩, ⟨1, false, true⟩, ⟨0, false, true⟩, ⟨0, true, true⟩, ⟨0, false, true⟩,
   ⟨0, false, true⟩, ⟨0, false, true⟩, ⟨0, false, true⟩, ⟨0, false, true⟩, ⟨1, false, true⟩,
   ⟨0, true, true⟩, ⟨0, false, true⟩, ⟨0, true, false⟩, ⟨0, false, true⟩, ⟨0, false, true⟩,
   ⟨0, false, true⟩, ⟨0, true, false⟩, ⟨0, false, true⟩, ⟨0, false, true⟩, ⟨0, true, false⟩,
   ⟨0, false, true⟩, ⟨0, false, true⟩, ⟨0, true, false⟩, ⟨0, false, true⟩, ⟨2, false, true⟩,
   ⟨0, false, true⟩]

/-- Transcription chunk: lines 79-103 of src/server/models.py. -/
def modelsPyLines79to103 : List SrcLine := [
   ⟨0, true, false⟩, ⟨0, true, false⟩, ⟨0, false, false⟩, ⟨0, false, true⟩, ⟨0, true, false⟩,
   ⟨0, false, true⟩, ⟨0, false, true⟩, ⟨0, false, true⟩, ⟨0, false, true⟩, ⟨0, true, false⟩,
   ⟨0, false, true⟩, ⟨0, false, true⟩, ⟨0, true, false⟩, ⟨0, false, true⟩, ⟨0, false, true⟩,
   ⟨0, true, false⟩, ⟨0, false, true⟩, ⟨0, false, true⟩, ⟨0, false, true⟩, ⟨0, false, true⟩,
   ⟨0, false, true⟩, ⟨0, false, true⟩, ⟨0, true, false⟩, ⟨0, false, true⟩, ⟨0, false, true⟩]

/-- The 103 lines of src/server/models.py, transcribed (chunked to
keep list literals small).  Line 1 is the bare `"""` opening the
module docstring; lines 2-25 carry no `"""`; line 26 is the indented
bare `"""` that terminates that string; line 27 is indented text.
(Lines 49 and 77 each hold a complete one-line docstring, two
delimiters; they lie beyond line 27 and are never reached by the
scan.) -/
def modelsPyLines : List SrcLine :=
  modelsPyLines1to26 ++ modelsPyLines27to52 ++ modelsPyLines53to78 ++
    modelsPyLines79to103

/-- Locates the first module-level statement line other than bare
string-literal expression statements, given per-line lexical shapes:
blank lines are skipped, a line with an odd number of `"""` delimiters
outside a string opens one (in models.py every such line holds nothing
but optional indentation and the delimiter, so it never also begins
another statement), lines inside a string belong to the literal until
a line with an odd delimiter count closes it, and the first non-blank
line outside any string is the start of the first statement.  Returns
that line's number and whether it is indented; per Python's tokenizer,
an indented first statement after only docstring text is an
IndentationError at that line. -/
def firstStatementLine : Bool → Nat → List SrcLine → Option (Nat × Bool)
  | _, _, [] => Option.none
  | true, n, l :: rest =>
      if l.tq % 2 = 1 then firstStatementLine false (n + 1) rest
      else firstStatementLine true (n + 1) rest
  | false, n, l :: rest =>
      if l.blank then firstStatementLine false (n + 1) rest
      else if l.tq % 2 = 1 then firstStatementLine true (n + 1) rest
      else Option.some (n, l.indented)

/-- Result of launching app.py: either the routes are registered and
requests can be served, or the process dies at import time with a
syntax error at the given source line. -/
inductive Startup where
  | serving
  | importError (line : Nat)
deriving Repr, DecidableEq

/-- Modelled from Python's import semantics: executing app.py line 2
(`from models import db, Restaurant, RestaurantPizza, Pizza`) first
parses src/server/models.py; if the first statement line of that
module is indented, parsing raises IndentationError there, the import
fails, and the Flask app never starts — no route exists and no request
ever receives a response from this program. -/
def appStartup : Startup :=
  match firstStatementLine false 1 modelsPyLines with
  | Option.some (n, true) => Startup.importError n
  | _ => Startup.serving

/-! ## JSON values and Python values -/

/-- JSON values, as produced by the handlers. -/
inductive Json where
  | null
  | int (n : Int)
  | num (q : ℚ)
  | bool (b : Bool)
  | str (s : String)
  | arr (xs : List Json)
  | obj (kvs : List (String × Json))
deriving Repr

/-- Keys of a JSON object (empty for non-objects). -/
def Json.keys : Json → List String
  | Json.obj kvs => kvs.map (fun kv => kv.1)
  | _ => []

/-- Value bound to key `k` in a JSON object, if any. -/
def Json.lookup : Json → String → Option Json
  | Json.obj kvs, k => (kvs.find? (fun kv => kv.1 == k)).map (fun kv => kv.2)
  | _, _ => Option.none

/-- A Python value as it appears in a parsed JSON request body:
`dict.get` on a missing key yields `None`; otherwise the field carries
an integer, a float (a JSON number with a fractional part — the bodies
concerned are exactly representable, so ℚ models them), a boolean, or
a string. -/
inductive PyVal where
  | vNone
  | vInt (n : Int)
  | vFloat (q : ℚ)
  | vBool (b : Bool)
  | vStr (s : String)
deriving Repr, DecidableEq

/-- Numeric interpretation a Python order comparison against an int
uses: ints and floats compare by value, bool is an int subclass
(True = 1, False = 0); None and str support no such comparison. -/
def PyVal.asNum : PyVal → Option ℚ
  | PyVal.vInt n => Option.some (n : ℚ)
  | PyVal.vFloat q => Option.some q
  | PyVal.vBool b => Option.some (if b then 1 else 0)
  | _ => Option.none

/-- JSON rendering of a stored Python value. -/
def PyVal.toJson : PyVal → Json
  | PyVal.vNone => Json.null
  | PyVal.vInt n => Json.int n
  | PyVal.vFloat q => Json.num q
  | PyVal.vBool b => Json.bool b
  | PyVal.vStr s => Json.str s

/-- The Python exceptions distinguished by the handlers: `ValueError`
(raised by the price validator), `TypeError` (raised by an order
comparison against a non-numeric value), and the store's
`IntegrityError`. -/
inductive PyExc where
  | valueError (msg : String)
  | typeError
  | integrityError
deriving Repr, DecidableEq

/-! ## Data model (the handler text, never executed by the program) -/

/-- Row of the `restaurants` table (models.py, class Restaurant):
columns id, name, address. -/
structure Restaurant where
  id : Int
  name : String
  address : String
deriving Repr, DecidableEq

/-- Row of the `pizzas` table (models.py, class Pizza):
columns id, name, ingredients. -/
structure Pizza where
  id : Int
  name : String
  ingredients : String
deriving Repr, DecidableEq

/-- Row of the `restaurant_pizzas` table (models.py, class
RestaurantPizza): columns id, price, pizza_id, restaurant_id.  The
price column holds whatever Python value passed the validator (an
int, but also a float or bool — the validator's range check succeeds
on those). -/
structure RestaurantPizza where
  id : Int
  price : PyVal
  pizza_id : Int
  restaurant_id : Int
deriving Repr, DecidableEq

/-- The relational store: the three tables plus the autoincrement
counter the store uses to assign the primary key of a newly inserted
`restaurant_pizzas` row. -/
structure Store where
  restaurants : List Restaurant
  pizzas : List Pizza
  restaurant_pizzas : List RestaurantPizza
  nextRpId : Int
deriving Repr, DecidableEq

/-- `Restaurant.query.filter(Restaurant.id == id).one_or_none()`. -/
def findRestaurant (s : Store) (i : Int) : Option Restaurant :=
  s.restaurants.find? (fun r => r.id == i)

/-- `Pizza.query` lookup by primary key (the `pizza` relationship of a
`RestaurantPizza` row resolves its `pizza_id` foreign key). -/
def findPizza (s : Store) (i : Int) : Option Pizza :=
  s.pizzas.find? (fun p => p.id == i)

/-- `RestaurantPizza.validate_price` (models.py lines 96-100): the
`validates` hook runs on assignment; `if not (1 <= value <= 30)`
raises `ValueError("Price must be between 1 and 30")`; when `value`
is `None` or a string the chained comparison itself raises
`TypeError`; an int, float or bool value compares numerically, so an
in-range float such as 15.5 (or True, numerically 1) passes and is
returned unchanged. -/
def validate_price (value : PyVal) : Except PyExc PyVal :=
  match value.asNum with
  | Option.some q =>
      if (1:ℚ) ≤ q ∧ q ≤ 30 then Except.ok value
      else Except.error (PyExc.valueError "Price must be between 1 and 30")
  | Option.none => Except.error PyExc.typeError

/-- Whether the range check `1 <= value <= 30` succeeds on the value:
it has a numeric interpretation lying in the inclusive range. -/
def pricePasses (v : PyVal) : Bool :=
  match v.asNum with
  | Option.some q => decide ((1:ℚ) ≤ q ∧ q ≤ 30)
  | Option.none => false

/-- A `RestaurantPizza` object constructed in the handler but not yet
flushed to the store: `price` has passed the validator, the two
foreign key attributes hold whatever the request carried. -/
structure PendingRP where
  price : PyVal
  pizza_id : PyVal
  restaurant_id : PyVal
deriving Repr, DecidableEq

/-- `RestaurantPizza(price=..., pizza_id=..., restaurant_id=...)`: the
constructor assigns each attribute, which fires `validate_price` on
`price`; `pizza_id` and `restaurant_id` have no validator and are
stored as given. -/
def mkRestaurantPizza (price pizza_id restaurant_id : PyVal) :
    Except PyExc PendingRP :=
  match validate_price price with
  | Except.ok v => Except.ok ⟨v, pizza_id, restaurant_id⟩
  | Except.error e => Except.error e

/-- Modelled from the spec: the storage engine is outside src (the
spec lists it as an external collaborator "assumed to provide durable
tables, primary keys, foreign keys, transactions").
`db.session.commit()` of the added row enforces the column
declarations of models.py lines 84-87: `nullable=False` on price,
pizza_id, restaurant_id and the foreign keys to `pizzas.id` and
`restaurants.id`; a violation raises `IntegrityError`, a success
assigns the autoincrement primary key and appends the row. -/
def commitRP (s : Store) (p : PendingRP) : Except PyExc (Store × RestaurantPizza) :=
  match p.pizza_id, p.restaurant_id with
  | PyVal.vInt pid, PyVal.vInt rid =>
      if (findPizza s pid).isSome && (findRestaurant s rid).isSome then
        let rp : RestaurantPizza := ⟨s.nextRpId, p.price, pid, rid⟩
        Except.ok ({ s with
                      restaurant_pizzas := s.restaurant_pizzas ++ [rp],
                      nextRpId := s.nextRpId + 1 }, rp)
      else Except.error PyExc.integrityError
  | _, _ => Except.error PyExc.integrityError

/-- An HTTP response: JSON body and status code. -/
structure Response where
  body : Json
  status : Nat
deriving Repr

/-- `restaurant.to_dict(rules=('-restaurant_pizzas',))` — id, name,
address only. -/
def serializeRestaurantShallow (r : Restaurant) : Json :=
  Json.obj [("id", Json.int r.id), ("name", Json.str r.name),
            ("address", Json.str r.address)]

/-- `pizza.to_dict(rules=('-restaurant_pizzas',))` — id, name,
ingredients only. -/
def serializePizzaShallow (p : Pizza) : Json :=
  Json.obj [("id", Json.int p.id), ("name", Json.str p.name),
            ("ingredients", Json.str p.ingredients)]

/-- A `RestaurantPizza` row as it appears nested inside
`restaurant.to_dict()`: the row's own columns plus its `pizza`
relationship; the `restaurant` back-reference is removed by
`Restaurant.serialize_rules = ('-restaurant_pizzas.restaurant',)` and
the pizza's association list by `RestaurantPizza.serialize_rules`
(`'-pizza.restaurant_pizzas'`). -/
def serializeRPNested (s : Store) (rp : RestaurantPizza) : Json :=
  Json.obj [("id", Json.int rp.id), ("price", PyVal.toJson rp.price),
            ("pizza_id", Json.int rp.pizza_id),
            ("restaurant_id", Json.int rp.restaurant_id),
            ("pizza",
              match findPizza s rp.pizza_id with
              | Option.some p => serializePizzaShallow p
              | Option.none => Json.null)]

/-- `restaurant.to_dict()` with
`serialize_rules = ('-restaurant_pizzas.restaurant',)`: id, name,
address, and the nested list of the restaurant's association rows. -/
def serializeRestaurantFull (s : Store) (r : Restaurant) : Json :=
  Json.obj [("id", Json.int r.id), ("name", Json.str r.name),
            ("address", Json.str r.address),
            ("restaurant_pizzas",
              Json.arr ((s.restaurant_pizzas.filter
                          (fun rp => rp.restaurant_id == r.id)).map
                        (serializeRPNested s)))]

/-- `restaurant_pizza.to_dict()` with
`serialize_rules = ('-pizza.restaurant_pizzas', '-restaurant.restaurant_pizzas')`:
the row's columns plus shallow `pizza` and `restaurant` objects. -/
def serializeRPFull (s : Store) (rp : RestaurantPizza) : Json :=
  Json.obj [("id", Json.int rp.id), ("price", PyVal.toJson rp.price),
            ("pizza_id", Json.int rp.pizza_id),
            ("restaurant_id", Json.int rp.restaurant_id),
            ("pizza",
              match findPizza s rp.pizza_id with
              | Option.some p => serializePizzaShallow p
              | Option.none => Json.null),
            ("restaurant",
              match findRestaurant s rp.restaurant_id with
              | Option.some r => serializeRestaurantShallow r
              | Option.none => Json.null)]

/-- The fixed error payload of `RestaurantPizzas.post`:
`{"errors": ["validation errors"]}`. -/
def errorsPayload : Json :=
  Json.obj [("errors", Json.arr [Json.str "validation errors"])]

/-- The not-found payload of `RestaurantById`:
`{"error": "Restaurant not found"}`. -/
def notFoundPayload : Json :=
  Json.obj [("error", Json.str "Restaurant not found")]

/-- `Restaurants.get` (app.py lines 32-34): every restaurant
serialized without its association list, status 200. -/
def restaurantsGet (s : Store) : Response :=
  ⟨Json.arr (s.restaurants.map serializeRestaurantShallow), 200⟩

/-- `Pizzas.get` (app.py lines 53-55): every pizza serialized without
its association list, status 200. -/
def pizzasGet (s : Store) : Response :=
  ⟨Json.arr (s.pizzas.map serializePizzaShallow), 200⟩

/-- `RestaurantById.get` (app.py lines 38-42). -/
def restaurantByIdGet (s : Store) (i : Int) : Response :=
  match findRestaurant s i with
  | Option.none => ⟨notFoundPayload, 404⟩
  | Option.some r => ⟨serializeRestaurantFull s r, 200⟩

/-- `RestaurantById.delete` (app.py lines 44-50): a missing id yields
the 404 payload and leaves the store unchanged; otherwise
`db.session.delete(restaurant)` with the relationship's
`cascade='all, delete-orphan'` (models.py line 43) removes the
restaurant row and every association row referencing it in the one
committed transaction, and the handler returns an empty body with
204. -/
def restaurantByIdDelete (s : Store) (i : Int) : Store × Response :=
  match findRestaurant s i with
  | Option.none => (s, ⟨notFoundPayload, 404⟩)
  | Option.some _ =>
      ({ s with
          restaurants := s.restaurants.filter (fun r => !(r.id == i)),
          restaurant_pizzas :=
            s.restaurant_pizzas.filter (fun rp => !(rp.restaurant_id == i)) },
       ⟨Json.str "", 204⟩)

/-- The parsed JSON body of a POST to `/restaurant_pizzas`:
`data.get('price')`, `data.get('pizza_id')`,
`data.get('restaurant_id')` (each `PyVal.vNone` when the key is
absent). -/
structure ReqBody where
  price : PyVal
  pizza_id : PyVal
  restaurant_id : PyVal
deriving Repr, DecidableEq

/-- The body of the `try` block of `RestaurantPizzas.post` (app.py
lines 61-74): construct the row (the price validator may raise), add
and commit (the store may raise `IntegrityError`); `except ValueError`
returns the fixed 400 payload, `except Exception` rolls the session
back and returns the same payload; on success the created row is
serialized from the committed state with status 201. -/
def restaurantPizzasPost (s : Store) (body : ReqBody) : Store × Response :=
  match mkRestaurantPizza body.price body.pizza_id body.restaurant_id with
  | Except.error (PyExc.valueError _) => (s, ⟨errorsPayload, 400⟩)
  | Except.error _ => (s, ⟨errorsPayload, 400⟩)
  | Except.ok pending =>
      match commitRP s pending with
      | Except.error _ => (s, ⟨errorsPayload, 400⟩)
      | Except.ok (s2, rp) => (s2, ⟨serializeRPFull s2 rp, 201⟩)

/-- Outcome of dispatching a POST to `/restaurant_pizzas`: either the
handler returned a response, or an exception left the handler body
uncaught (to be rendered by the web framework, not by this code). -/
inductive PostOutcome where
  | handled (r : Response)
  | escaped
deriving Repr

/-- `RestaurantPizzas.post` as dispatched: `data = request.get_json()`
runs BEFORE the `try` block (app.py line 60), so a malformed JSON body
makes `get_json` raise `BadRequest` outside every `except` clause of
the handler; `Option.none` models a malformed body. -/
def restaurantPizzasEndpoint (s : Store) (body : Option ReqBody) :
    Store × PostOutcome :=
  match body with
  | Option.none => (s, PostOutcome.escaped)
  | Option.some b =>
      let sr := restaurantPizzasPost s b
      (sr.1, PostOutcome.handled sr.2)

/-- The store with empty tables. -/
def emptyStore : Store := ⟨[], [], [], 1⟩

/-- The price invariant of claim C5: every persisted association row
has a price whose numeric value lies in the inclusive range 1..30. -/
def priceInvariant (s : Store) : Prop :=
  ∀ rp ∈ s.restaurant_pizzas, pricePasses rp.price = true

instance (s : Store) : Decidable (priceInvariant s) := by
  unfold priceInvariant
  infer_instance

/-- The precondition of claim C9: the request's `pizza_id` or
`restaurant_id` is missing (or otherwise not an integer), or is an
integer that references no existing row. -/
def badRef (s : Store) (pidv ridv : PyVal) : Prop :=
  (∀ pid : Int, pidv ≠ PyVal.vInt pid) ∨
  (∀ rid : Int, ridv ≠ PyVal.vInt rid) ∨
  (∃ pid : Int, pidv = PyVal.vInt pid ∧ findPizza s pid = Option.none) ∨
  (∃ rid : Int, ridv = PyVal.vInt rid ∧ findRestaurant s rid = Option.none)

/-- Concrete pizza row used by the witnesses. -/
def wPizza : Pizza := ⟨1, "Margherita", "tomato,cheese"⟩

/-- Concrete restaurant row used by the witnesses. -/
def wRestaurant : Restaurant := ⟨1, "Dominion", "1 Main St"⟩

/-- Concrete association row used by the witnesses. -/
def wRP : RestaurantPizza := ⟨1, PyVal.vInt 15, 1, 1⟩

/-- Concrete store used by the witnesses: one restaurant, one pizza. -/
def wStore : Store := ⟨[wRestaurant], [wPizza], [], 1⟩

/-- Concrete store used by the witnesses: one restaurant, one pizza,
one association row. -/
def wStore2 : Store := ⟨[wRestaurant], [wPizza], [wRP], 2⟩

/-! ## Helper lemmas -/

theorem models_first_statement_indented :
    firstStatementLine false 1 modelsPyLines = Option.some (27, true) := by
  decide

theorem models_import_fails : appStartup = Startup.importError 27 := by
  unfold appStartup
  rw [models_first_statement_indented]

theorem validate_price_ok_passes (v w : PyVal)
    (h : validate_price v = Except.ok w) :
    w = v ∧ pricePasses v = true := by
  unfold validate_price at h
  split at h
  · next q ha =>
      split at h
      · next hq =>
          cases h
          refine ⟨rfl, ?_⟩
          unfold pricePasses
          rw [ha]
          simpa using hq
      · cases h
  · cases h

theorem mkRestaurantPizza_ok_price (price pid rid : PyVal) (p : PendingRP)
    (h : mkRestaurantPizza price pid rid = Except.ok p) :
    pricePasses p.price = true := by
  unfold mkRestaurantPizza at h
  cases hv : validate_price price with
  | error e => rw [hv] at h; cases h
  | ok w =>
    rw [hv] at h
    cases h
    obtain ⟨hw, hp⟩ := validate_price_ok_passes price w hv
    show pricePasses w = true
    rw [hw]
    exact hp

theorem commitRP_ok_rows (s : Store) (p : PendingRP) (s2 : Store)
    (rp : RestaurantPizza) (h : commitRP s p = Except.ok (s2, rp)) :
    s2.restaurant_pizzas = s.restaurant_pizzas ++ [rp] ∧
    rp.price = p.price := by
  unfold commitRP at h
  split at h
  · split at h
    · cases h
      exact ⟨rfl, rfl⟩
    · cases h
  · cases h

theorem length_filter_split {α : Type} (p : α → Bool) (l : List α) :
    (l.filter (fun a => !(p a))).length + (l.filter p).length = l.length := by
  induction l with
  | nil => rfl
  | cons a t ih =>
    cases hpa : p a <;> simp [List.filter_cons, hpa] <;> omega

theorem restaurantPizzasPost_store (s : Store) (body : ReqBody) :
    (restaurantPizzasPost s body).1 = s ∨
    ∃ rp : RestaurantPizza, pricePasses rp.price = true ∧
      (restaurantPizzasPost s body).1.restaurant_pizzas =
        s.restaurant_pizzas ++ [rp] := by
  unfold restaurantPizzasPost
  cases hm : mkRestaurantPizza body.price body.pizza_id body.restaurant_id with
  | error e => cases e <;> simp
  | ok pending =>
    dsimp only
    cases hc : commitRP s pending with
    | error e => simp
    | ok sr =>
      obtain ⟨s2, rp⟩ := sr
      dsimp only
      have hrows := commitRP_ok_rows s pending s2 rp hc
      have hpr := mkRestaurantPizza_ok_price _ _ _ _ hm
      refine Or.inr ⟨rp, ?_, ?_⟩
      · rw [hrows.2]
        exact hpr
      · simpa using hrows.1

/-! ## Claims -/

/-- C1 (code_bug): the program never serves the claimed 201 — models.py
fails to parse (its first statement line is 27 and it is indented), so
app.py dies at import and no response is produced for any request.
The handler text as written does match the claim: for a price p with
1 ≤ p ≤ 30 and foreign keys referencing an existing pizza and
restaurant, the POST logic would append the new row (with the
store-assigned id) and answer 201 with the row serialized as id,
price, pizza_id, restaurant_id plus the nested pizza and restaurant
objects, each without its own association list. -/
theorem C1_valid_post_never_served (s : Store) (p pid rid : Int)
    (pz : Pizza) (r : Restaurant)
    (h1 : 1 ≤ p) (h2 : p ≤ 30)
    (hpz : findPizza s pid = Option.some pz)
    (hr : findRestaurant s rid = Option.some r) :
    appStartup = Startup.importError 27 ∧
    restaurantPizzasPost s ⟨PyVal.vInt p, PyVal.vInt pid, PyVal.vInt rid⟩ =
      ({ s with
          restaurant_pizzas :=
            s.restaurant_pizzas ++ [⟨s.nextRpId, PyVal.vInt p, pid, rid⟩],
          nextRpId := s.nextRpId + 1 },
       ⟨Json.obj [("id", Json.int s.nextRpId), ("price", Json.int p),
                  ("pizza_id", Json.int pid),
                  ("restaurant_id", Json.int rid),
                  ("pizza", serializePizzaShallow pz),
                  ("restaurant", serializeRestaurantShallow r)],
        201⟩) := by
  refine ⟨models_import_fails, ?_⟩
  have hq1 : (1:ℚ) ≤ (p:ℚ) := by exact_mod_cast h1
  have hq2 : (p:ℚ) ≤ 30 := by exact_mod_cast h2
  have hpz2 : s.pizzas.find? (fun x => x.id == pid) = Option.some pz := hpz
  have hr2 : s.restaurants.find? (fun x => x.id == rid) = Option.some r := hr
  simp [restaurantPizzasPost, mkRestaurantPizza, validate_price,
        PyVal.asNum, PyVal.toJson, commitRP, serializeRPFull, findPizza,
        findRestaurant, hpz2, hr2, hq1, hq2]

/-- Witness for C1 at price 15 on the one-restaurant one-pizza
store. -/
theorem C1_valid_post_never_served_witness :
    (1 ≤ (15:Int) ∧ (15:Int) ≤ 30 ∧
     findPizza wStore 1 = Option.some wPizza ∧
     findRestaurant wStore 1 = Option.some wRestaurant) ∧
    (appStartup = Startup.importError 27 ∧
     restaurantPizzasPost wStore
         ⟨PyVal.vInt 15, PyVal.vInt 1, PyVal.vInt 1⟩ =
       ({ wStore with
           restaurant_pizzas :=
             wStore.restaurant_pizzas ++
               [⟨wStore.nextRpId, PyVal.vInt 15, 1, 1⟩],
           nextRpId := wStore.nextRpId + 1 },
        ⟨Json.obj [("id", Json.int wStore.nextRpId),
                   ("price", Json.int 15),
                   ("pizza_id", Json.int 1), ("restaurant_id", Json.int 1),
                   ("pizza", serializePizzaShallow wPizza),
                   ("restaurant", serializeRestaurantShallow wRestaurant)],
         201⟩)) :=
  ⟨⟨by decide, by decide, rfl, rfl⟩,
   C1_valid_post_never_served wStore 15 1 1 wPizza wRestaurant (by decide)
     (by decide) rfl rfl⟩

/-- C2 (code_bug): the program never serves the claimed 400 — models.py
fails to parse, so app.py dies at import and no response is produced.
The handler text does match the claim: for an integer price p with
p < 1 or p > 30, `validate_price` raises `ValueError` on assignment,
the `except ValueError` branch answers 400 with the fixed payload, and
the store is unchanged (no row was ever added). -/
theorem C2_out_of_range_price_never_served (s : Store) (p : Int)
    (pidv ridv : PyVal) (h : p < 1 ∨ 30 < p) :
    appStartup = Startup.importError 27 ∧
    restaurantPizzasPost s ⟨PyVal.vInt p, pidv, ridv⟩ =
      (s, ⟨errorsPayload, 400⟩) := by
  refine ⟨models_import_fails, ?_⟩
  have hn : ¬ ((1:ℚ) ≤ (p:ℚ) ∧ (p:ℚ) ≤ 30) := by
    rcases h with h | h
    · intro hc
      have hq : (p:ℚ) < 1 := by exact_mod_cast h
      linarith [hc.1]
    · intro hc
      have hq : (30:ℚ) < (p:ℚ) := by exact_mod_cast h
      linarith [hc.2]
  simp [restaurantPizzasPost, mkRestaurantPizza, validate_price,
        PyVal.asNum, hn]

/-- Witness for C2 at price 35. -/
theorem C2_out_of_range_price_never_served_witness :
    ((35:Int) < 1 ∨ (30:Int) < 35) ∧
    (appStartup = Startup.importError 27 ∧
     restaurantPizzasPost wStore
         ⟨PyVal.vInt 35, PyVal.vInt 1, PyVal.vInt 1⟩ =
       (wStore, ⟨errorsPayload, 400⟩)) :=
  ⟨by decide,
   C2_out_of_range_price_never_served wStore 35 (PyVal.vInt 1)
     (PyVal.vInt 1) (by decide)⟩

/-- C3 (code_bug): the program never serves the claimed 204 — models.py
fails to parse, so app.py dies at import and no response is produced.
The handler text does match the claim: deleting an existing restaurant
would answer 204 with an empty body in the one committed transition;
afterwards no association row references the deleted restaurant, every
association row of another restaurant survives, the association table
shrank by exactly the number of rows that referenced the restaurant,
and a subsequent GET on that id answers 404 with the not-found
payload. -/
theorem C3_delete_cascades_never_served (s : Store) (i : Int)
    (h : (findRestaurant s i).isSome = true) :
    appStartup = Startup.importError 27 ∧
    (restaurantByIdDelete s i).2 = ⟨Json.str "", 204⟩ ∧
    (∀ rp ∈ (restaurantByIdDelete s i).1.restaurant_pizzas,
       rp.restaurant_id ≠ i) ∧
    (∀ rp ∈ s.restaurant_pizzas, rp.restaurant_id ≠ i →
       rp ∈ (restaurantByIdDelete s i).1.restaurant_pizzas) ∧
    ((restaurantByIdDelete s i).1.restaurant_pizzas.length
       + (s.restaurant_pizzas.filter
            (fun rp => rp.restaurant_id == i)).length
       = s.restaurant_pizzas.length) ∧
    restaurantByIdGet (restaurantByIdDelete s i).1 i =
      ⟨notFoundPayload, 404⟩ := by
  refine ⟨models_import_fails, ?_⟩
  obtain ⟨r, hr⟩ := Option.isSome_iff_exists.mp h
  unfold restaurantByIdDelete
  rw [hr]
  dsimp only
  have hnone : (s.restaurants.filter (fun x => !(x.id == i))).find?
      (fun x => x.id == i) = Option.none := by
    rw [List.find?_eq_none]
    intro x hx
    simpa using (List.mem_filter.mp hx).2
  refine ⟨rfl, ?_, ?_, length_filter_split _ _, ?_⟩
  · intro rp hrp
    simpa using (List.mem_filter.mp hrp).2
  · intro rp hrp hne
    exact List.mem_filter.mpr ⟨hrp, by simpa using hne⟩
  · simp [restaurantByIdGet, findRestaurant, hnone]

/-- Witness for C3 deleting restaurant 1, which owns one association
row. -/
theorem C3_delete_cascades_never_served_witness :
    (findRestaurant wStore2 1).isSome = true ∧
    (appStartup = Startup.importError 27 ∧
     (restaurantByIdDelete wStore2 1).2 = ⟨Json.str "", 204⟩ ∧
     (∀ rp ∈ (restaurantByIdDelete wStore2 1).1.restaurant_pizzas,
        rp.restaurant_id ≠ 1) ∧
     (∀ rp ∈ wStore2.restaurant_pizzas, rp.restaurant_id ≠ 1 →
        rp ∈ (restaurantByIdDelete wStore2 1).1.restaurant_pizzas) ∧
     ((restaurantByIdDelete wStore2 1).1.restaurant_pizzas.length
        + (wStore2.restaurant_pizzas.filter
             (fun rp => rp.restaurant_id == 1)).length
        = wStore2.restaurant_pizzas.length) ∧
     restaurantByIdGet (restaurantByIdDelete wStore2 1).1 1 =
       ⟨notFoundPayload, 404⟩) :=
  ⟨rfl, C3_delete_cascades_never_served wStore2 1 rfl⟩

/-- C4 (code_bug): the program never serves the claimed 404 — models.py
fails to parse, so app.py dies at import and no response is produced.
The handler text does match the claim: for an id bound to no
restaurant, both GET and DELETE on /restaurants/id would answer 404
with body `{"error": "Restaurant not found"}` and leave the store
unchanged. -/
theorem C4_missing_restaurant_never_served (s : Store) (i : Int)
    (h : findRestaurant s i = Option.none) :
    appStartup = Startup.importError 27 ∧
    restaurantByIdGet s i = ⟨notFoundPayload, 404⟩ ∧
    restaurantByIdDelete s i = (s, ⟨notFoundPayload, 404⟩) := by
  refine ⟨models_import_fails, ?_, ?_⟩
  · simp [restaurantByIdGet, h]
  · simp [restaurantByIdDelete, h]

/-- Witness for C4 at id 999 on the one-restaurant store. -/
theorem C4_missing_restaurant_never_served_witness :
    findRestaurant wStore 999 = Option.none ∧
    (appStartup = Startup.importError 27 ∧
     restaurantByIdGet wStore 999 = ⟨notFoundPayload, 404⟩ ∧
     restaurantByIdDelete wStore 999 = (wStore, ⟨notFoundPayload, 404⟩)) :=
  ⟨rfl, C4_missing_restaurant_never_served wStore 999 rfl⟩

/-- C5 (code_bug): no operation ever runs — models.py (which holds
`validate_price`) fails to parse, app.py dies at import, and no row is
ever created anywhere, so the claimed "after every operation" guarantee
is about operations that never execute.  The handler text does
preserve the invariant: starting from a store whose association rows
all have a numeric price in 1..30, any dispatched POST to
/restaurant_pizzas (with any body, malformed included) and any DELETE
on /restaurants/id leave a store whose rows all still have a numeric
price in 1..30, because the validator fires on every assignment of the
`price` attribute. -/
theorem C5_price_invariant_never_running (s : Store)
    (h : priceInvariant s) :
    appStartup = Startup.importError 27 ∧
    (∀ b : Option ReqBody,
       priceInvariant (restaurantPizzasEndpoint s b).1) ∧
    (∀ i : Int, priceInvariant (restaurantByIdDelete s i).1) := by
  refine ⟨models_import_fails, ?_, ?_⟩
  · intro b
    cases b with
    | none => exact h
    | some body =>
      have hgoal : priceInvariant (restaurantPizzasPost s body).1 := by
        rcases restaurantPizzasPost_store s body with heq | ⟨rp, hok, hrows⟩
        · rw [heq]
          exact h
        · intro x hx
          rw [hrows] at hx
          rcases List.mem_append.mp hx with hx1 | hx2
          · exact h x hx1
          · rw [List.mem_singleton.mp hx2]
            exact hok
      exact hgoal
  · intro i
    unfold restaurantByIdDelete
    cases hf : findRestaurant s i with
    | none => exact h
    | some r =>
      dsimp only
      intro x hx
      exact h x (List.mem_filter.mp hx).1

/-- Witness for C5 on the store with one association row at price
15. -/
theorem C5_price_invariant_never_running_witness :
    priceInvariant wStore2 ∧
    (appStartup = Startup.importError 27 ∧
     (∀ b : Option ReqBody,
        priceInvariant (restaurantPizzasEndpoint wStore2 b).1) ∧
     (∀ i : Int, priceInvariant (restaurantByIdDelete wStore2 i).1)) :=
  ⟨by decide, C5_price_invariant_never_running wStore2 (by decide)⟩

/-- C6 (code_bug): the listings never answer at all — models.py fails
to parse, app.py dies at import, and the routes are never registered,
so "status 200 always" is false of the program.  The handler text does
match the claim: GET /restaurants would answer 200 with one JSON
object per restaurant whose keys are exactly id, name, address, and
GET /pizzas would answer 200 with one JSON object per pizza whose keys
are exactly id, name, ingredients; no `restaurant_pizzas` key ever
appears in either listing. -/
theorem C6_listings_never_served (s : Store) :
    appStartup = Startup.importError 27 ∧
    ((restaurantsGet s).status = 200 ∧
     ∃ xs : List Json, (restaurantsGet s).body = Json.arr xs ∧
       xs.length = s.restaurants.length ∧
       ∀ j ∈ xs, Json.keys j = ["id", "name", "address"]) ∧
    ((pizzasGet s).status = 200 ∧
     ∃ xs : List Json, (pizzasGet s).body = Json.arr xs ∧
       xs.length = s.pizzas.length ∧
       ∀ j ∈ xs, Json.keys j = ["id", "name", "ingredients"]) := by
  refine ⟨models_import_fails,
          ⟨rfl, s.restaurants.map serializeRestaurantShallow, rfl,
           by simp, ?_⟩,
          rfl, s.pizzas.map serializePizzaShallow, rfl, by simp, ?_⟩
  · intro j hj
    obtain ⟨r, hr, rfl⟩ := List.mem_map.mp hj
    rfl
  · intro j hj
    obtain ⟨p, hp, rfl⟩ := List.mem_map.mp hj
    rfl

/-- C7 (code_bug): the program never serves the claimed 200 — models.py
fails to parse, so app.py dies at import and no response is produced.
The handler text does match the claim: GET /restaurants/id on an
existing restaurant would answer 200 whose body is an object with keys
id, name, address, restaurant_pizzas; each element of the nested list
has keys id, price, pizza_id, restaurant_id, pizza (no back-reference
key `restaurant`, hence no cycle), and its pizza value is an object
with keys id, name, ingredients.  The referential hypothesis says
every association row's pizza_id resolves, as the store's foreign keys
guarantee. -/
theorem C7_get_existing_never_served (s : Store) (i : Int)
    (r : Restaurant)
    (h : findRestaurant s i = Option.some r)
    (href : ∀ rp ∈ s.restaurant_pizzas,
       (findPizza s rp.pizza_id).isSome = true) :
    appStartup = Startup.importError 27 ∧
    (restaurantByIdGet s i).status = 200 ∧
    Json.keys (restaurantByIdGet s i).body =
      ["id", "name", "address", "restaurant_pizzas"] ∧
    ∃ xs : List Json,
      Json.lookup (restaurantByIdGet s i).body "restaurant_pizzas" =
        Option.some (Json.arr xs) ∧
      ∀ j ∈ xs,
        Json.keys j =
          ["id", "price", "pizza_id", "restaurant_id", "pizza"] ∧
        ∃ jp : Json, Json.lookup j "pizza" = Option.some jp ∧
          Json.keys jp = ["id", "name", "ingredients"] := by
  refine ⟨models_import_fails, ?_⟩
  unfold restaurantByIdGet
  rw [h]
  dsimp only
  refine ⟨rfl, rfl, ?_⟩
  refine ⟨_, rfl, ?_⟩
  intro j hj
  obtain ⟨rp, hrp, rfl⟩ := List.mem_map.mp hj
  obtain ⟨p, hp⟩ :=
    Option.isSome_iff_exists.mp (href rp (List.mem_filter.mp hrp).1)
  constructor
  · unfold serializeRPNested
    rw [hp]
    rfl
  · refine ⟨serializePizzaShallow p, ?_, rfl⟩
    unfold serializeRPNested
    rw [hp]
    rfl

/-- Witness for C7 on the store whose restaurant 1 offers pizza 1 at
price 15. -/
theorem C7_get_existing_never_served_witness :
    (findRestaurant wStore2 1 = Option.some wRestaurant ∧
     ∀ rp ∈ wStore2.restaurant_pizzas,
       (findPizza wStore2 rp.pizza_id).isSome = true) ∧
    (appStartup = Startup.importError 27 ∧
     (restaurantByIdGet wStore2 1).status = 200 ∧
     Json.keys (restaurantByIdGet wStore2 1).body =
       ["id", "name", "address", "restaurant_pizzas"] ∧
     ∃ xs : List Json,
       Json.lookup (restaurantByIdGet wStore2 1).body "restaurant_pizzas" =
         Option.some (Json.arr xs) ∧
       ∀ j ∈ xs,
         Json.keys j =
           ["id", "price", "pizza_id", "restaurant_id", "pizza"] ∧
         ∃ jp : Json, Json.lookup j "pizza" = Option.some jp ∧
           Json.keys jp = ["id", "name", "ingredients"]) :=
  ⟨⟨rfl, by decide⟩,
   C7_get_existing_never_served wStore2 1 wRestaurant rfl (by decide)⟩

/-- C8 (code_bug): a malformed-JSON POST never gets the claimed fixed
400 payload, twice over.  The program serves nothing: models.py fails
to parse, so app.py dies at import.  And even the handler text could
not produce it: `request.get_json()` runs before the `try` block
(app.py line 60), so on a malformed body the `BadRequest` it raises
escapes the handler uncaught — the dispatch outcome is an escaped
exception, never the handled response `(errorsPayload, 400)`. -/
theorem C8_malformed_body_never_served :
    appStartup = Startup.importError 27 ∧
    (∀ s : Store, restaurantPizzasEndpoint s Option.none =
       (s, PostOutcome.escaped)) ∧
    (∀ s : Store, ¬ ((restaurantPizzasEndpoint s Option.none).2 =
       PostOutcome.handled ⟨errorsPayload, 400⟩)) := by
  refine ⟨models_import_fails, fun s => rfl, fun s hcontra => ?_⟩
  simp [restaurantPizzasEndpoint] at hcontra

/-- C9 (code_bug): the program never serves the claimed 400 — models.py
fails to parse, so app.py dies at import and no response is produced.
The handler text does match the claim: with an in-range price but a
pizza_id or restaurant_id that is missing (None or not an integer) or
references no existing row, the commit raises `IntegrityError`, the
broad `except Exception` branch rolls back and answers 400 with the
fixed payload, and no row is persisted. -/
theorem C9_invalid_reference_never_served (s : Store) (p : Int)
    (pidv ridv : PyVal) (h1 : 1 ≤ p) (h2 : p ≤ 30)
    (hbad : badRef s pidv ridv) :
    appStartup = Startup.importError 27 ∧
    restaurantPizzasPost s ⟨PyVal.vInt p, pidv, ridv⟩ =
      (s, ⟨errorsPayload, 400⟩) := by
  refine ⟨models_import_fails, ?_⟩
  have hq1 : (1:ℚ) ≤ (p:ℚ) := by exact_mod_cast h1
  have hq2 : (p:ℚ) ≤ 30 := by exact_mod_cast h2
  have hfail : commitRP s ⟨PyVal.vInt p, pidv, ridv⟩ =
      Except.error PyExc.integrityError := by
    rcases hbad with hno | hno | ⟨pid, rfl, hmiss⟩ | ⟨rid, rfl, hmiss⟩
    · cases hp : pidv with
      | vInt n => exact absurd rfl (hp ▸ hno n)
      | vNone => rfl
      | vFloat q => rfl
      | vBool b => rfl
      | vStr s2 => rfl
    · cases hq : ridv with
      | vInt n => exact absurd rfl (hq ▸ hno n)
      | vNone => cases pidv <;> rfl
      | vFloat q => cases pidv <;> rfl
      | vBool b => cases pidv <;> rfl
      | vStr s2 => cases pidv <;> rfl
    · cases ridv with
      | vInt rid => simp [commitRP, hmiss]
      | vNone => rfl
      | vFloat q => rfl
      | vBool b => rfl
      | vStr s2 => rfl
    · cases pidv with
      | vInt pid => simp [commitRP, hmiss]
      | vNone => rfl
      | vFloat q => rfl
      | vBool b => rfl
      | vStr s2 => rfl
  simp [restaurantPizzasPost, mkRestaurantPizza, validate_price,
        PyVal.asNum, hq1, hq2, hfail]

/-- Witness for C9: valid price 15 but pizza_id 999 references no
pizza. -/
theorem C9_invalid_reference_never_served_witness :
    (1 ≤ (15:Int) ∧ (15:Int) ≤ 30 ∧
     badRef wStore (PyVal.vInt 999) (PyVal.vInt 1)) ∧
    (appStartup = Startup.importError 27 ∧
     restaurantPizzasPost wStore
         ⟨PyVal.vInt 15, PyVal.vInt 999, PyVal.vInt 1⟩ =
       (wStore, ⟨errorsPayload, 400⟩)) :=
  ⟨⟨by decide, by decide, Or.inr (Or.inr (Or.inl ⟨999, rfl, rfl⟩))⟩,
   C9_invalid_reference_never_served wStore 15 (PyVal.vInt 999)
     (PyVal.vInt 1) (by decide) (by decide)
     (Or.inr (Or.inr (Or.inl ⟨999, rfl, rfl⟩)))⟩

theorem post_float_persists :
    (restaurantPizzasPost wStore
        ⟨PyVal.vFloat 15.5, PyVal.vInt 1, PyVal.vInt 1⟩).2.status = 201 ∧
    (restaurantPizzasPost wStore
        ⟨PyVal.vFloat 15.5, PyVal.vInt 1, PyVal.vInt 1⟩).1.restaurant_pizzas.length
      = 1 := by
  have hq1 : (1:ℚ) ≤ (15.5:ℚ) := by norm_num
  have hq2 : (15.5:ℚ) ≤ 30 := by norm_num
  constructor <;>
    simp [restaurantPizzasPost, mkRestaurantPizza, validate_price,
          PyVal.asNum, commitRP, findPizza, findRestaurant, wStore,
          wPizza, wRestaurant, hq1, hq2]

/-- C10 counterexample: the claim that ANY non-integer price is
answered 400 with the store unchanged is false of the handler text at
the concrete body price = 15.5, pizza_id = 1, restaurant_id = 1 on the
one-restaurant one-pizza store: Python's chained comparison
`1 <= 15.5 <= 30` is True, the validator passes, and the row is
persisted with a 201 response. -/
theorem C10_counterexample_float_price :
    (restaurantPizzasPost wStore
        ⟨PyVal.vFloat 15.5, PyVal.vInt 1, PyVal.vInt 1⟩).2.status = 201 ∧
    (restaurantPizzasPost wStore
        ⟨PyVal.vFloat 15.5, PyVal.vInt 1, PyVal.vInt 1⟩).1.restaurant_pizzas.length
      = 1 ∧
    wStore.restaurant_pizzas.length = 0 :=
  ⟨post_float_persists.1, post_float_persists.2, rfl⟩

/-- C10 amended: the non-ValueError (TypeError) path exists only for a
price that is absent (None) or non-numeric (a string): there the
handler text answers 400 with the fixed payload and an unchanged
store via the broad `except Exception` branch; a numeric non-integer
price such as the float 15.5 instead passes `1 <= value <= 30` and
would be persisted with 201.  In any case the program as shipped
produces no response at all: models.py fails to parse and app.py dies
at import. -/
theorem C10_amended_nonnumeric_price :
    appStartup = Startup.importError 27 ∧
    validate_price PyVal.vNone = Except.error PyExc.typeError ∧
    (∀ t : String,
       validate_price (PyVal.vStr t) = Except.error PyExc.typeError) ∧
    (∀ (s : Store) (pidv ridv : PyVal),
       restaurantPizzasPost s ⟨PyVal.vNone, pidv, ridv⟩ =
         (s, ⟨errorsPayload, 400⟩)) ∧
    (∀ (s : Store) (t : String) (pidv ridv : PyVal),
       restaurantPizzasPost s ⟨PyVal.vStr t, pidv, ridv⟩ =
         (s, ⟨errorsPayload, 400⟩)) ∧
    (restaurantPizzasPost wStore
        ⟨PyVal.vFloat 15.5, PyVal.vInt 1, PyVal.vInt 1⟩).2.status = 201 := by
  refine ⟨models_import_fails, rfl, fun t => rfl, fun s pidv ridv => ?_,
          fun s t pidv ridv => ?_, post_float_persists.1⟩
  · simp [restaurantPizzasPost, mkRestaurantPizza, validate_price,
          PyVal.asNum]
  · simp [restaurantPizzasPost, mkRestaurantPizza, validate_price,
          PyVal.asNum]

end PizzaAPI
